import Mathlib

/-!
Shallow embedding of the MindSync backend chat subsystem
(src/routes/chat.js, src/services/aiService.js, src/models/User.js,
src/middleware/auth.js), together with theorems about the crisis-aware
message dispatch logic, the session quota, the mood-entry list, and the
usage-statistics updater.

Conventions of the embedding:
* JavaScript strings are Lean `String`; `toLowerCase` and `includes` are
  modelled characterwise (`Char.toLower`, list infix containment).
* `Array.prototype.slice(-n)` is `jsSliceLast n`.
* Message ids and ISO timestamps (built from `Date.now()`) carry no logic
  and are omitted from the `Msg` record; wall-clock instants that the code
  does use (for `lastActivity`, `lastSessionDate`, mood dates) are passed
  explicitly as numeric parameters.
* The external OpenAI completion call is a function parameter
  `complete : List PromptMsg → Except Unit Completion`; `Except.error`
  models a thrown/timed-out call, and a `Completion` with no choices
  models a malformed response (reading `choices[0].message.content` then
  throws, landing in the same `catch`).
-/

namespace MindSync

/-- Model of JavaScript `String.prototype.toLowerCase`, characterwise. -/
def jsToLowerCase (s : String) : String :=
  String.mk (s.data.map Char.toLower)

/-- Model of JavaScript `String.prototype.includes sub`: `sub` occurs as a
contiguous substring of `s`, as infix containment on the character lists. -/
def jsIncludes (s sub : String) : Bool :=
  decide (sub.data <:+: s.data)

/-- Model of JavaScript `Array.prototype.slice (-n)`: the last `n` elements
(the whole list when it has fewer than `n` elements). -/
def jsSliceLast {α : Type} (n : Nat) (l : List α) : List α :=
  l.drop (l.length - n)

/-- Crisis keyword list of `detectCrisis` in src/routes/chat.js. -/
def crisisKeywords : List String :=
  ["suicidio", "suicide", "matarmé", "matarme", "lastimarme", "lastimarme",
   "no quiero vivir", "me quiero morir", "quiero acabar con todo",
   "kill myself", "end my life", "hurt myself", "kill me",
   "atacar", "herir", "lastimar", "violence", "self-harm",
   "depresión severa", "no puedo más", "cannot take it anymore",
   "trying to end", "possession overdose", "overdose", "drogas letales"]

/-- Model of `detectCrisis` in src/routes/chat.js: case-insensitive substring
match of any configured crisis keyword. -/
def detectCrisis (message : String) : Bool :=
  let messageLower := jsToLowerCase message
  crisisKeywords.any (fun keyword => jsIncludes messageLower keyword)

/-- High-tier keyword list of `detectCrisisLevel` in src/services/aiService.js. -/
def crisisKeywordsHigh : List String :=
  ["suicidio", "suicide", "matarmé", "matarme", "no quiero vivir", "me quiero morir",
   "kill myself", "end my life", "acabar con todo", "cannot take it anymore"]

/-- Medium-tier keyword list of `detectCrisisLevel` in src/services/aiService.js. -/
def crisisKeywordsMedium : List String :=
  ["lastimarme", "lastimarme", "no puedo más", "quiero desaparecer",
   "hurt myself", "no vale la pena", "no sirvo para nada"]

/-- Low-tier keyword list of `detectCrisisLevel` in src/services/aiService.js. -/
def crisisKeywordsLow : List String :=
  ["muy mal", "horrible", "muy triste", "todo está mal", "ayuda",
   "no sé qué hacer", "perdido", "sin esperanza"]

/-- Model of `detectCrisisLevel` in src/services/aiService.js: returns the
highest matching tier name, else the string "none". -/
def detectCrisisLevel (message : String) : String :=
  let messageLower := jsToLowerCase message
  if crisisKeywordsHigh.any (fun keyword => jsIncludes messageLower keyword) then "high"
  else if crisisKeywordsMedium.any (fun keyword => jsIncludes messageLower keyword) then "medium"
  else if crisisKeywordsLow.any (fun keyword => jsIncludes messageLower keyword) then "low"
  else "none"

/-- Specification-side predicate: `text` contains some phrase of `phrases` as a
case-insensitive substring (case-insensitivity through the same character
lowering the code applies). -/
def containsPhrase (phrases : List String) (text : String) : Prop :=
  ∃ keyword ∈ phrases, keyword.data <:+: (jsToLowerCase text).data

/-- Message roles (closed set used by src/routes/chat.js and the prompt builder). -/
inductive Role
  | system
  | user
  | assistant
deriving DecidableEq, Repr

/-- Message type tags appearing in src/routes/chat.js and src/services/aiService.js. -/
inductive MsgType
  | welcome
  | text
  | fallback
deriving DecidableEq, Repr

/-- One stored conversation message. The `id` and ISO `timestamp` strings built
from `Date.now()` carry no dispatch logic and are omitted. -/
structure Msg where
  role : Role
  content : String
  suggestions : List String := []
  type : MsgType := MsgType.text
deriving DecidableEq, Repr

/-- One message of the prompt array sent to the completion service. -/
structure PromptMsg where
  role : Role
  content : String
deriving DecidableEq, Repr

/-- Upstream completion response: the list of choice contents
(`completion.choices[i].message.content`). An empty list models a malformed
response, where reading `choices[0]` throws inside the `try` block. -/
structure Completion where
  choices : List String
deriving DecidableEq, Repr

/-- Return value of `generateResponse` (timestamp omitted). -/
structure AIResponse where
  content : String
  suggestions : List String
  type : MsgType
deriving DecidableEq, Repr

/-- Mutable context bag of a conversation (src/routes/chat.js). Dates are
modelled as numeric instants. -/
structure Context where
  currentMood : Nat := 5
  sessionStart : Nat := 0
  lastActivity : Nat := 0
deriving DecidableEq, Repr

/-- Fixed system prompt `SYSTEM_PROMPT` of src/services/aiService.js. -/
def SYSTEM_PROMPT : String :=
  "Eres MindSync, un asistente de salud mental especializado en terapia cognitiva conductual (TCC) y apoyo psicológico. Tu objetivo es proporcionar apoyo emocional, técnicas de bienestar mental y herramientas de autoayuda, especialmente dirigido a usuarios de Colombia y América Latina.\n\n**CARACTERÍSTICAS IMPORTANTES:**\n- Responde SIEMPRE en español (español colombiano principalmente)\n- Utiliza un lenguaje empático, cálido y comprensivo\n- Evita diagnosticar condiciones médicas\n- Siempre menciona que complementas (no sustituyes) la ayuda profesional\n- Usa técnicas de terapia cognitiva, mindfulness y TCC\n- Considera el contexto cultural latinoamericano\n- Detecta y responde apropiadamente a señales de crisis o riesgo\n\n**TÉCNICAS QUE DEBES USAR:**\n- Técnicas de respiración y relajación\n- Reestructuración cognitiva\n- Técnicas de mindfulness\n- Ejercicios de auto-reflexión\n- Gestión del estrés y ansiedad\n- Desarrollo de habilidades de afrontamiento\n- Fortalecimiento de la autoestima\n\n**FORMATO DE RESPUESTA:**\n- Sé conciso pero completo\n- Utiliza bullet points para técnicas prácticas\n- Preguntas reflexivas cuando sea apropiado\n- Tono profesional pero cercano\n- Incluye ejercicios o actividades específicas\n\n**CONTEXTO CULTURAL:**\n- Considera valores familiares latinoamericanos\n- Menciona instituciones de salud mental colombianas cuando sea relevante\n- Adapta los ejemplos al contexto cultural local\n- Sé sensible a temas como el machismo, los roles familiares, etc."

/-- Fallback reply content of the `catch` branch of `generateResponse`
(src/services/aiService.js). -/
def fallbackContent : String :=
  "Lo siento, estoy experimentando dificultades técnicas en este momento. Mientras tanto, te recomiendo:\n\n• Practicar técnicas de respiración: 4 segundos inhala, 4 mantén, 4 exhala\n• Escribir tus pensamientos en un diario\n• Realizar una actividad que disfrutes\n• Contactar a un profesional si necesitas apoyo inmediato\n\n¿Hay algo específico en lo que pueda ayudarte de manera diferente?"

/-- Fallback suggestion list of the `catch` branch of `generateResponse`. -/
def fallbackSuggestions : List String :=
  ["Técnicas de respiración", "Escribir en mi diario",
   "Ejercicios de mindfulness", "Hablar con un profesional"]

/-- Complete fallback reply of the `catch` branch of `generateResponse`. -/
def fallbackResponse : AIResponse :=
  { content := fallbackContent, suggestions := fallbackSuggestions, type := MsgType.fallback }

/-- Model of `generateSuggestions` in src/services/aiService.js. The
`aiResponse` and `userContext` arguments are received but unused, exactly as
in the source. -/
def generateSuggestions (userMessage : String) (aiResponse : String)
    (userContext : Context) : List String :=
  let messageLower := jsToLowerCase userMessage
  let suggestions : List String := []
  let suggestions :=
    if jsIncludes messageLower "ansiedad" || jsIncludes messageLower "nervios"
        || jsIncludes messageLower "estres" then
      suggestions ++ ["Técnicas de relajación", "Ejercicios de respiración", "Mindfulness"]
    else suggestions
  let suggestions :=
    if jsIncludes messageLower "triste" || jsIncludes messageLower "depresion"
        || jsIncludes messageLower "mal" then
      suggestions ++ ["Actividades que disfruto", "Reflexionar sobre logros",
        "Hablar con alguien de confianza"]
    else suggestions
  let suggestions :=
    if jsIncludes messageLower "sueno" || jsIncludes messageLower "dormir"
        || jsIncludes messageLower "insomnio" then
      suggestions ++ ["Rutina de sueño", "Técnicas de relajación nocturna", "Higiene del sueño"]
    else suggestions
  let suggestions :=
    if jsIncludes messageLower "trabajo" || jsIncludes messageLower "laboral"
        || jsIncludes messageLower "jefe" then
      suggestions ++ ["Gestión del estrés laboral", "Comunicación asertiva",
        "Equilibrio vida-trabajo"]
    else suggestions
  let suggestions :=
    if jsIncludes messageLower "familia" || jsIncludes messageLower "pareja"
        || jsIncludes messageLower "relacion" then
      suggestions ++ ["Comunicación efectiva", "Límites saludables", "Resolución de conflictos"]
    else suggestions
  let suggestions :=
    if suggestions.length == 0 then
      suggestions ++ ["Cuéntame más sobre esto", "¿Cómo te hace sentir?",
        "¿Qué has intentado antes?", "Practicar mindfulness", "Ejercicios de gratitud"]
    else suggestions
  suggestions.take 4

/-- Prompt array built inside `generateResponse` (src/services/aiService.js,
lines 46 to 75): system prompt, then the last 12 history messages restricted to
the user and assistant roles, then the new user message. -/
def buildPromptMessages (conversationHistory : List Msg) (message : String) :
    List PromptMsg :=
  let messages : List PromptMsg := [{ role := Role.system, content := SYSTEM_PROMPT }]
  let recentHistory := jsSliceLast 12 conversationHistory
  let messages := messages ++ recentHistory.filterMap (fun msg =>
    match msg.role with
    | Role.user => some { role := Role.user, content := msg.content }
    | Role.assistant => some { role := Role.assistant, content := msg.content }
    | Role.system => none)
  messages ++ [{ role := Role.user, content := message }]

/-- Model of `generateResponse` in src/services/aiService.js. The external
call is the function argument `complete`; the second component of the result
records every prompt actually sent upstream. Any thrown upstream error
(`Except.error`) and any malformed completion (no `choices[0]`) lands in the
`catch` branch, which returns `fallbackResponse`. -/
def generateResponse (complete : List PromptMsg → Except Unit Completion)
    (message : String) (conversationHistory : List Msg) (userContext : Context) :
    AIResponse × List (List PromptMsg) :=
  let prompt := buildPromptMessages conversationHistory message
  match complete prompt with
  | Except.ok completion =>
    match completion.choices.head? with
    | some aiResponse =>
      ({ content := aiResponse,
         suggestions := generateSuggestions message aiResponse userContext,
         type := MsgType.text }, [prompt])
    | none => (fallbackResponse, [prompt])
  | Except.error _ => (fallbackResponse, [prompt])

/-- Subscription plans (closed enum of src/models/User.js). -/
inductive Plan
  | free
  | basic
  | premium
deriving DecidableEq, Repr

/-- One mood sample of `stats.moodTrends` (src/models/User.js); the date is a
numeric instant. -/
structure MoodEntry where
  date : Nat
  mood : Nat
  context : String
deriving DecidableEq, Repr

/-- Usage statistics sub-object `stats` of src/models/User.js.
`lastSessionDate` is an optional numeric instant (absent until first session). -/
structure UserStats where
  totalSessions : Nat := 0
  totalMessages : Nat := 0
  sessionsThisWeek : Nat := 0
  lastSessionDate : Option Int := none
  streakDays : Nat := 0
  moodTrends : List MoodEntry := []
deriving DecidableEq, Repr

/-- User preferences (only the field the chat dispatcher reads). -/
structure Preferences where
  language : String := "es"
deriving DecidableEq, Repr

/-- User aggregate (the fields of src/models/User.js the claims touch). -/
structure UserRec where
  name : String := ""
  subscriptionPlan : Plan := Plan.free
  preferences : Preferences := {}
  stats : UserStats := {}
deriving DecidableEq, Repr

/-- Weekly session limit table of `canStartSession` (src/models/User.js):
free 5, basic 20, premium unlimited encoded as -1. -/
def sessionLimits : Plan → Int
  | Plan.free => 5
  | Plan.basic => 20
  | Plan.premium => -1

/-- Model of `userSchema.methods.canStartSession` (src/models/User.js). -/
def canStartSession (user : UserRec) : Bool :=
  let limit := sessionLimits user.subscriptionPlan
  limit == -1 || (user.stats.sessionsThisWeek : Int) < limit

/-- Outcome of the `checkSessionLimit` middleware (src/middleware/auth.js):
either the request proceeds to the route handler, or it is rejected with
HTTP 429 carrying the plan and the current session count. -/
inductive SessionLimitCheck
  | proceed
  | rejected429 (subscriptionPlan : Plan) (currentSessions : Nat)
deriving DecidableEq, Repr

/-- Model of the `checkSessionLimit` middleware (src/middleware/auth.js). -/
def checkSessionLimit (user : UserRec) : SessionLimitCheck :=
  if !(canStartSession user) then
    SessionLimitCheck.rejected429 user.subscriptionPlan user.stats.sessionsThisWeek
  else
    SessionLimitCheck.proceed

/-- Milliseconds per day, the divisor of `updateSessionStats`. -/
def msPerDay : Int := 1000 * 60 * 60 * 24

/-- Model of `userSchema.methods.updateSessionStats` (src/models/User.js).
Both `new Date()` evaluations of the method body occur in the same
synchronous call and are modelled as the single instant `now`. The `none`
branch of the match is unreachable: `lastSessionDate` was assigned `some now`
on the line above, exactly as in the source. -/
def updateSessionStats (stats : UserStats) (now : Int) : UserStats :=
  let stats :=
    { stats with
      totalSessions := stats.totalSessions + 1
      sessionsThisWeek := stats.sessionsThisWeek + 1
      lastSessionDate := some now }
  let daysSinceLastSession :=
    match stats.lastSessionDate with
    | some lastSession => (now - lastSession).fdiv msPerDay
    | none => 0
  if daysSinceLastSession == 1 then
    { stats with streakDays := stats.streakDays + 1 }
  else if daysSinceLastSession > 1 then
    { stats with streakDays := 1 }
  else
    stats

/-- Model of `userSchema.methods.addMoodEntry` (src/models/User.js): push the
new entry, then keep only the last 100 entries (`slice(-100)`) when the list
exceeds 100. -/
def addMoodEntry (moodTrends : List MoodEntry) (now : Nat) (mood : Nat)
    (context : String) : List MoodEntry :=
  let moodTrends := moodTrends ++ [{ date := now, mood := mood, context := context }]
  if moodTrends.length > 100 then jsSliceLast 100 moodTrends else moodTrends

/-- Iterated calls of `addMoodEntry`, one per entry of `entries`, in order. -/
def addMoodEntries (moodTrends : List MoodEntry) (entries : List MoodEntry) :
    List MoodEntry :=
  entries.foldl (fun acc e => addMoodEntry acc e.date e.mood e.context) moodTrends

/-- One named crisis-support resource of `generateCrisisResources`
(src/routes/chat.js): a name, a phone or a URL, and a description. -/
structure CrisisResource where
  name : String
  phone : Option String := none
  url : Option String := none
  description : String
deriving DecidableEq, Repr

/-- Crisis-resource bundle returned by `generateCrisisResources`
(src/routes/chat.js). -/
structure CrisisBundle where
  type : String
  message : String
  resources : List CrisisResource
  actionRequired : String
  priority : String
deriving DecidableEq, Repr

/-- Model of `generateCrisisResources` in src/routes/chat.js: the Spanish
bundle for language "es", the English bundle for every other language. -/
def generateCrisisResources (language : String) : CrisisBundle :=
  if language == "es" then
    { type := "crisis_intervention"
      message := "Estoy preocupado por tu bienestar. Es importante que busques ayuda profesional inmediatamente."
      resources :=
        [{ name := "Línea de Prevención del Suicidio",
           phone := some "1-800-273-8255",
           description := "Disponible 24/7 en español" },
         { name := "Chat de Crisis",
           url := some "https://www.crisistextline.org/es",
           description := "Soporte por mensaje de texto 24/7" },
         { name := "Emergencias",
           phone := some "123",
           description := "Línea de emergencias en Colombia" }]
      actionRequired := "immediate"
      priority := "high" }
  else
    { type := "crisis_intervention"
      message := "I am concerned about your wellbeing. It is important that you seek professional help immediately."
      resources :=
        [{ name := "National Suicide Prevention Lifeline",
           phone := some "1-800-273-8255",
           description := "Available 24/7" },
         { name := "Crisis Text Line",
           url := some "https://www.crisistextline.org",
           description := "Text support available 24/7" },
         { name := "Emergency Services",
           phone := some "911",
           description := "Call for immediate emergency help" }]
      actionRequired := "immediate"
      priority := "high" }

/-- One in-memory conversation session of src/routes/chat.js (the
`conversations` map values). The `sessionId` string carries no logic here. -/
structure Conversation where
  userId : Nat
  messages : List Msg := []
  context : Context := {}
deriving DecidableEq, Repr

/-- The process-wide `conversations` map of src/routes/chat.js, as an
association list with `Map` lookup semantics (first binding wins; `set` and
`delete` keep at most one binding per key). -/
abbrev ConversationStore := List (String × Conversation)

/-- Model of `conversations.get id` (missing key gives `none`). -/
def getConv (store : ConversationStore) (conversationId : String) :
    Option Conversation :=
  (store.find? (fun p => p.fst == conversationId)).map Prod.snd

/-- Model of `conversations.set id conv` (replaces any previous binding). -/
def setConv (store : ConversationStore) (conversationId : String)
    (conversation : Conversation) : ConversationStore :=
  (conversationId, conversation) :: store.filter (fun p => p.fst != conversationId)

/-- Model of `conversations.delete id`. -/
def deleteConv (store : ConversationStore) (conversationId : String) :
    ConversationStore :=
  store.filter (fun p => p.fst != conversationId)

/-- The user-side message `userMessage` appended by the `/message` handler
of src/routes/chat.js (id and timestamp omitted, see `Msg`). -/
def userMessageOf (message : String) : Msg :=
  { role := Role.user, content := message }

/-- HTTP response of the `/message` handler (src/routes/chat.js):
404 when the conversation is missing or owned by another user, a 200
crisis-alert payload on the crisis path, and a 200 message reply otherwise. -/
inductive ChatResponse
  | notFound
  | crisisAlert (data : CrisisBundle)
  | messageReply (message : Msg) (conversationId : String) (suggestions : List String)
deriving DecidableEq, Repr

/-- Full outcome of one `/message` request: the HTTP response, the
conversation store and user aggregate after the request, and the list of
prompts sent to the completion service during the request. -/
structure DispatchResult where
  response : ChatResponse
  conversations : ConversationStore
  user : UserRec
  promptsSent : List (List PromptMsg)
deriving DecidableEq, Repr

/-- Model of the `/message` route handler of src/routes/chat.js. Inputs are
the authenticated user id, the owning user aggregate, the parsed body fields
(`message`, `conversationId`, optional `context`) and the current instant
`now`; the external completion call is `complete`. -/
def postMessage (complete : List PromptMsg → Except Unit Completion)
    (store : ConversationStore) (user : UserRec) (userId : Nat)
    (message : String) (conversationId : String) (reqContext : Option Context)
    (now : Nat) : DispatchResult :=
  match getConv store conversationId with
  | none =>
    { response := ChatResponse.notFound, conversations := store,
      user := user, promptsSent := [] }
  | some conversation =>
    if conversation.userId != userId then
      { response := ChatResponse.notFound, conversations := store,
        user := user, promptsSent := [] }
    else if detectCrisis message then
      let language :=
        if user.preferences.language == "" then "es" else user.preferences.language
      { response := ChatResponse.crisisAlert (generateCrisisResources language),
        conversations := store, user := user, promptsSent := [] }
    else
      let userMessage := userMessageOf message
      let messages := conversation.messages ++ [userMessage]
      let userContext := reqContext.getD conversation.context
      let (aiResponse, callLog) :=
        generateResponse complete userMessage.content (jsSliceLast 10 messages)
          userContext
      let aiMessage : Msg :=
        { role := Role.assistant, content := aiResponse.content,
          suggestions := aiResponse.suggestions, type := aiResponse.type }
      let newContext :=
        { conversation.context with
          lastActivity := now
          currentMood :=
            match reqContext with
            | some c => if c.currentMood != 0 then c.currentMood
                        else conversation.context.currentMood
            | none => conversation.context.currentMood }
      let store :=
        setConv store conversationId
          { conversation with messages := messages ++ [aiMessage], context := newContext }
      let user :=
        { user with stats :=
          { user.stats with totalMessages := user.stats.totalMessages + 1 } }
      { response := ChatResponse.messageReply aiMessage conversationId aiMessage.suggestions,
        conversations := store, user := user, promptsSent := callLog }

/-- Model of the `/session/end` route handler of src/routes/chat.js: delete
the conversation when the id is present (truthy) and the session belongs to
the requesting user; the response is a 200 in every case. -/
def sessionEnd (store : ConversationStore) (userId : Nat)
    (conversationId : Option String) : ConversationStore :=
  match conversationId with
  | none => store
  | some cid =>
    if cid == "" then store
    else
      match getConv store cid with
      | none => store
      | some conversation =>
        if conversation.userId == userId then deleteConv store cid else store

/-- Model of the `GET /conversation/:conversationId` route handler of
src/routes/chat.js: `none` is the 404 response, `some` the 200 payload. -/
def getConversationRoute (store : ConversationStore) (userId : Nat)
    (conversationId : String) : Option Conversation :=
  match getConv store conversationId with
  | none => none
  | some conversation =>
    if conversation.userId != userId then none else some conversation

/-- Specification-side category table of spec section 4.5: keyword categories
in the fixed scan order of the source, each with its fixed contributed
suggestions. -/
def suggestionCategories : List (List String × List String) :=
  [(["ansiedad", "nervios", "estres"],
    ["Técnicas de relajación", "Ejercicios de respiración", "Mindfulness"]),
   (["triste", "depresion", "mal"],
    ["Actividades que disfruto", "Reflexionar sobre logros",
     "Hablar con alguien de confianza"]),
   (["sueno", "dormir", "insomnio"],
    ["Rutina de sueño", "Técnicas de relajación nocturna", "Higiene del sueño"]),
   (["trabajo", "laboral", "jefe"],
    ["Gestión del estrés laboral", "Comunicación asertiva", "Equilibrio vida-trabajo"]),
   (["familia", "pareja", "relacion"],
    ["Comunicación efectiva", "Límites saludables", "Resolución de conflictos"])]

/-- Fixed generic suggestion list used when no category matches. -/
def genericSuggestions : List String :=
  ["Cuéntame más sobre esto", "¿Cómo te hace sentir?", "¿Qué has intentado antes?",
   "Practicar mindfulness", "Ejercicios de gratitud"]

/-- Specification-side suggestion generator (spec section 4.5): collect the
suggestions of the matching categories in scan order, fall back to the fixed
generic list when none matches, and cap the result at 4 items. -/
def suggestSpec (userMessage : String) : List String :=
  let matched := (suggestionCategories.filter
    (fun c => c.fst.any (fun k => jsIncludes (jsToLowerCase userMessage) k))).map Prod.snd
  let collected := matched.flatten
  (if collected.isEmpty then genericSuggestions else collected).take 4

/-- Windowed, role-restricted history slice the dispatcher forwards to the
completion service: the last 10 conversation messages, keeping only the user
and assistant turns. -/
def promptHistoryWindow (msgs : List Msg) : List PromptMsg :=
  (jsSliceLast 10 msgs).filterMap (fun msg =>
    match msg.role with
    | Role.user => some { role := Role.user, content := msg.content }
    | Role.assistant => some { role := Role.assistant, content := msg.content }
    | Role.system => none)

/-- Assistant-side message the non-crisis path of the `/message` handler
appends: the `generateResponse` outcome repackaged as a conversation message. -/
def assistantMessageOf (complete : List PromptMsg → Except Unit Completion)
    (c : Conversation) (m : String) (reqContext : Option Context) : Msg :=
  let aiResponse := (generateResponse complete m
    (jsSliceLast 10 (c.messages ++ [userMessageOf m])) (reqContext.getD c.context)).1
  { role := Role.assistant, content := aiResponse.content,
    suggestions := aiResponse.suggestions, type := aiResponse.type }

/-- Conversation context after a non-crisis `/message` request. -/
def updatedContextOf (c : Conversation) (reqContext : Option Context) (now : Nat) :
    Context :=
  { c.context with
    lastActivity := now
    currentMood :=
      match reqContext with
      | some rc => if rc.currentMood != 0 then rc.currentMood else c.context.currentMood
      | none => c.context.currentMood }

/-- Test fixture: an upstream completion service whose call always throws. -/
def completeFail : List PromptMsg → Except Unit Completion :=
  fun _ => Except.error ()

/-- Test fixture: an upstream completion service that always answers. -/
def completeOk : List PromptMsg → Except Unit Completion :=
  fun _ => Except.ok { choices := ["Entiendo. Cuéntame más."] }

/-- Test fixture: a conversation owned by user 7, fresh from session start. -/
def conv7 : Conversation := { userId := 7 }

/-- Test fixture: a store holding `conv7` under one conversation id. -/
def store7 : ConversationStore := [("c1", conv7)]

/-- Helper: `slice(-n)` returns at most `n` elements. -/
theorem jsSliceLast_length_le {α : Type} (n : Nat) (l : List α) :
    (jsSliceLast n l).length ≤ n := by
  simp [jsSliceLast]
  omega

/-- Helper: `generateResponse` sends exactly one prompt upstream, the one
built by `buildPromptMessages`, in every branch (success, malformed, thrown). -/
theorem generateResponse_promptsSent
    (complete : List PromptMsg → Except Unit Completion) (message : String)
    (hist : List Msg) (ctx : Context) :
    (generateResponse complete message hist ctx).2
      = [buildPromptMessages hist message] := by
  simp only [generateResponse]
  cases hcp : complete (buildPromptMessages hist message) with
  | error e => simp [hcp]
  | ok comp => cases hh : comp.choices.head? <;> simp [hcp, hh]

/-- Helper: reading a key just written to the conversation store returns the
written session. -/
theorem getConv_setConv (store : ConversationStore) (cid : String)
    (conv : Conversation) : getConv (setConv store cid conv) cid = some conv := by
  simp [getConv, setConv, List.find?_cons]

/-- Helper: reading a key just deleted from the conversation store returns
not-found. -/
theorem getConv_deleteConv (store : ConversationStore) (cid : String) :
    getConv (deleteConv store cid) cid = none := by
  simp only [getConv, deleteConv, Option.map_eq_none', List.find?_eq_none,
    List.mem_filter]
  intro p hp
  simp_all

/-- Helper: full characterization of a non-crisis `/message` request on an
owned conversation: the handler appends the user message and the assistant
reply, updates the context, increments `totalMessages` by one, sends exactly
one prompt upstream, and answers 200 with the assistant message. -/
theorem postMessage_noncrisis
    (complete : List PromptMsg → Except Unit Completion)
    (store : ConversationStore) (user : UserRec) (userId : Nat)
    (m cid : String) (c : Conversation) (ctx : Option Context) (now : Nat)
    (hget : getConv store cid = some c) (howner : c.userId = userId)
    (hcrisis : detectCrisis m = false) :
    postMessage complete store user userId m cid ctx now
      = { response := ChatResponse.messageReply (assistantMessageOf complete c m ctx)
            cid (assistantMessageOf complete c m ctx).suggestions,
          conversations := setConv store cid
            { c with
              messages := c.messages ++ [userMessageOf m, assistantMessageOf complete c m ctx],
              context := updatedContextOf c ctx now },
          user := { user with stats :=
            { user.stats with totalMessages := user.stats.totalMessages + 1 } },
          promptsSent :=
            [buildPromptMessages (jsSliceLast 10 (c.messages ++ [userMessageOf m])) m] } := by
  simp [postMessage, hget, howner, hcrisis, assistantMessageOf, updatedContextOf,
    generateResponse_promptsSent, userMessageOf]

/-- C3: the crisis detector is a total, deterministic function of the input
text: it reports a crisis exactly when the lowered input contains some
configured phrase as a substring, and the empty string yields no crisis; the
tiered `detectCrisisLevel` satisfies the same characterization against the
union of its three keyword lists. -/
theorem detectCrisis_total_characterization (m : String) :
    (detectCrisis m = true ↔ containsPhrase crisisKeywords m)
    ∧ detectCrisis "" = false
    ∧ (detectCrisisLevel m ≠ "none" ↔
        containsPhrase (crisisKeywordsHigh ++ crisisKeywordsMedium ++ crisisKeywordsLow) m)
    ∧ detectCrisisLevel "" = "none" := by
  refine ⟨?_, by decide, ⟨?_, ?_⟩, by decide⟩
  · simp [detectCrisis, containsPhrase, jsIncludes, List.any_eq_true]
  · intro hne
    simp only [detectCrisisLevel] at hne
    split_ifs at hne with h1 h2 h3
    · obtain ⟨k, hk, hkinc⟩ := List.any_eq_true.mp h1
      exact ⟨k, List.mem_append.mpr (Or.inl (List.mem_append.mpr (Or.inl hk))),
        by simpa [jsIncludes] using hkinc⟩
    · obtain ⟨k, hk, hkinc⟩ := List.any_eq_true.mp h2
      exact ⟨k, List.mem_append.mpr (Or.inl (List.mem_append.mpr (Or.inr hk))),
        by simpa [jsIncludes] using hkinc⟩
    · obtain ⟨k, hk, hkinc⟩ := List.any_eq_true.mp h3
      exact ⟨k, List.mem_append.mpr (Or.inr hk),
        by simpa [jsIncludes] using hkinc⟩
    · exact absurd rfl hne
  · rintro ⟨k, hk, hkinc⟩
    have hinc : jsIncludes (jsToLowerCase m) k = true := by
      simpa [jsIncludes] using hkinc
    simp only [detectCrisisLevel]
    split_ifs with h1 h2 h3
    · simp
    · simp
    · simp
    · rcases List.mem_append.mp hk with hk' | hkLow
      · rcases List.mem_append.mp hk' with hkH | hkM
        · exact absurd (List.any_eq_true.mpr ⟨k, hkH, hinc⟩) h1
        · exact absurd (List.any_eq_true.mpr ⟨k, hkM, hinc⟩) h2
      · exact absurd (List.any_eq_true.mpr ⟨k, hkLow, hinc⟩) h3

/-- C4: `canStartSession` is true exactly when the plan is premium or the
weekly session count is strictly below the tier quota (free 5, basic 20);
hence `checkSessionLimit` rejects a free user at 5 sessions with the 429
capacity error and never rejects a premium user. -/
theorem session_quota_gate (user : UserRec) :
    (canStartSession user = true ↔
      (user.subscriptionPlan = Plan.premium
        ∨ (user.subscriptionPlan = Plan.free ∧ user.stats.sessionsThisWeek < 5)
        ∨ (user.subscriptionPlan = Plan.basic ∧ user.stats.sessionsThisWeek < 20)))
    ∧ (user.subscriptionPlan = Plan.free → user.stats.sessionsThisWeek = 5 →
        checkSessionLimit user = SessionLimitCheck.rejected429 Plan.free 5)
    ∧ (user.subscriptionPlan = Plan.premium →
        checkSessionLimit user = SessionLimitCheck.proceed) := by
  obtain ⟨n, plan, prefs, stats⟩ := user
  refine ⟨?_, fun h h5 => ?_, fun h => ?_⟩
  · cases plan <;> simp [canStartSession, sessionLimits]
  · cases plan <;> simp_all [checkSessionLimit, canStartSession, sessionLimits]
  · cases plan <;> simp_all [checkSessionLimit, canStartSession, sessionLimits]

/-- Witness for C4 at concrete users: a free user with 5 weekly sessions is
rejected with the 429 error, a premium user with 500 is allowed through. -/
theorem session_quota_gate_witness :
    checkSessionLimit { stats := { sessionsThisWeek := 5 } }
      = SessionLimitCheck.rejected429 Plan.free 5
    ∧ checkSessionLimit
        { subscriptionPlan := Plan.premium, stats := { sessionsThisWeek := 500 } }
      = SessionLimitCheck.proceed :=
  ⟨(session_quota_gate { stats := { sessionsThisWeek := 5 } }).2.1 rfl rfl,
   (session_quota_gate
      { subscriptionPlan := Plan.premium, stats := { sessionsThisWeek := 500 } }).2.2 rfl⟩

/-- C10: `updateSessionStats` increments `totalSessions` and
`sessionsThisWeek` by one and overwrites `lastSessionDate` with the current
instant, but always leaves `streakDays` unchanged: the days-since-last-session
difference is computed against the value just assigned, so it is always 0 and
neither streak branch is ever taken. -/
theorem updateSessionStats_preserves_streak (stats : UserStats) (now : Int) :
    updateSessionStats stats now
      = { stats with
          totalSessions := stats.totalSessions + 1
          sessionsThisWeek := stats.sessionsThisWeek + 1
          lastSessionDate := some now }
    ∧ (updateSessionStats stats now).streakDays = stats.streakDays := by
  unfold updateSessionStats
  simp [sub_self, Int.zero_fdiv]

/-- C5: `addMoodEntry` keeps the mood list bounded at 100 after every call,
and iterating it from the empty list keeps exactly the most recent 100
entries in insertion order, evicting the oldest first (so after 105 inserts
precisely the last 100 survive). -/
theorem mood_list_bounded_fifo :
    (∀ (moodTrends : List MoodEntry) (now mood : Nat) (context : String),
        (addMoodEntry moodTrends now mood context).length ≤ 100)
    ∧ (∀ entries : List MoodEntry,
        addMoodEntries [] entries = entries.drop (entries.length - 100)) := by
  constructor
  · intro trends now mood context
    simp only [addMoodEntry, jsSliceLast]
    split_ifs with h
    · simp
      omega
    · simp_all
  · intro entries
    induction entries using List.reverseRecOn with
    | nil => simp [addMoodEntries]
    | append_singleton es e ih =>
      have hstep : addMoodEntries [] (es ++ [e])
          = addMoodEntry (addMoodEntries [] es) e.date e.mood e.context := by
        simp [addMoodEntries, List.foldl_append]
      rw [hstep, ih]
      have he : ({ date := e.date, mood := e.mood, context := e.context } : MoodEntry)
          = e := rfl
      simp only [addMoodEntry, jsSliceLast, he]
      rcases Nat.lt_or_ge es.length 100 with hL | hL
      · rw [if_neg (by simp; omega)]
        have h0 : es.length - 100 = 0 := by omega
        have h1 : es.length - 99 = 0 := by omega
        simp [h0, h1]
      · rw [if_pos (by simp; omega)]
        have hdlen : (List.drop (es.length - 100) es ++ [e]).length - 100 = 1 := by
          simp
          omega
        rw [hdlen]
        rw [List.drop_append_eq_append_drop, List.drop_drop]
        rw [List.drop_append_eq_append_drop]
        have h1 : (1 : Nat) - (List.drop (es.length - 100) es).length = 0 := by
          simp
          omega
        rw [h1]
        have h2 : (es ++ [e]).length - 100 = es.length - 99 := by simp
        rw [h2]
        have h3 : es.length - 100 + 1 = es.length - 99 := by omega
        have h4 : es.length - 99 - es.length = 0 := by omega
        simp [h3, h4]

/-- C7: the suggestion generator depends only on the user message (the other
two arguments are ignored), returns at most 4 suggestions, and agrees with
the specification-side generator: fixed categories scanned in order, fixed
generic list when nothing matches, capped at the first 4. -/
theorem suggestions_deterministic_capped (m a₁ a₂ : String) (c₁ c₂ : Context) :
    generateSuggestions m a₁ c₁ = generateSuggestions m a₂ c₂
    ∧ (generateSuggestions m a₁ c₁).length ≤ 4
    ∧ generateSuggestions m a₁ c₁ = suggestSpec m := by
  refine ⟨rfl, ?_, ?_⟩
  · simp only [generateSuggestions]
    exact List.length_take_le 4 _
  · simp only [generateSuggestions, suggestSpec, suggestionCategories, genericSuggestions,
      List.filter_cons, List.filter_nil, List.any_cons, List.any_nil, Bool.or_false,
      Bool.or_assoc]
    generalize (jsIncludes (jsToLowerCase m) "ansiedad" || (jsIncludes (jsToLowerCase m) "nervios" || jsIncludes (jsToLowerCase m) "estres")) = b1
    generalize (jsIncludes (jsToLowerCase m) "triste" || (jsIncludes (jsToLowerCase m) "depresion" || jsIncludes (jsToLowerCase m) "mal")) = b2
    generalize (jsIncludes (jsToLowerCase m) "sueno" || (jsIncludes (jsToLowerCase m) "dormir" || jsIncludes (jsToLowerCase m) "insomnio")) = b3
    generalize (jsIncludes (jsToLowerCase m) "trabajo" || (jsIncludes (jsToLowerCase m) "laboral" || jsIncludes (jsToLowerCase m) "jefe")) = b4
    generalize (jsIncludes (jsToLowerCase m) "familia" || (jsIncludes (jsToLowerCase m) "pareja" || jsIncludes (jsToLowerCase m) "relacion")) = b5
    cases b1 <;> cases b2 <;> cases b3 <;> cases b4 <;> cases b5 <;> rfl

/-- C8: the prompt sent upstream is the fixed system prompt, then the last 10
conversation messages restricted to user and assistant roles (system messages
are never forwarded), then the new user message, and its total length never
exceeds 12; the dispatcher sends exactly that prompt on the non-crisis path. -/
theorem prompt_windowed_bounded :
    (∀ (msgs : List Msg) (m : String),
      buildPromptMessages (jsSliceLast 10 msgs) m
        = { role := Role.system, content := SYSTEM_PROMPT }
            :: (promptHistoryWindow msgs ++ [{ role := Role.user, content := m }]))
    ∧ (∀ msgs : List Msg, (promptHistoryWindow msgs).length ≤ 10)
    ∧ (∀ (msgs : List Msg) (p : PromptMsg), p ∈ promptHistoryWindow msgs →
        p.role = Role.user ∨ p.role = Role.assistant)
    ∧ (∀ (msgs : List Msg) (m : String),
        (buildPromptMessages (jsSliceLast 10 msgs) m).length ≤ 12)
    ∧ (∀ (complete : List PromptMsg → Except Unit Completion)
        (store : ConversationStore) (user : UserRec) (userId : Nat)
        (m cid : String) (c : Conversation) (ctx : Option Context) (now : Nat),
        getConv store cid = some c → c.userId = userId → detectCrisis m = false →
        (postMessage complete store user userId m cid ctx now).promptsSent
          = [buildPromptMessages (jsSliceLast 10 (c.messages ++ [userMessageOf m])) m]) := by
  have hcollapse : ∀ (msgs : List Msg),
      jsSliceLast 12 (jsSliceLast 10 msgs) = jsSliceLast 10 msgs := by
    intro msgs
    simp only [jsSliceLast]
    have h0 : (List.drop (msgs.length - 10) msgs).length - 12 = 0 := by
      simp only [List.length_drop]
      omega
    rw [h0, List.drop_zero]
  have hmain : ∀ (msgs : List Msg) (m : String),
      buildPromptMessages (jsSliceLast 10 msgs) m
        = { role := Role.system, content := SYSTEM_PROMPT }
            :: (promptHistoryWindow msgs ++ [{ role := Role.user, content := m }]) := by
    intro msgs m
    simp [buildPromptMessages, promptHistoryWindow, hcollapse]
  have hwin10 : ∀ msgs : List Msg, (promptHistoryWindow msgs).length ≤ 10 := by
    intro msgs
    simp only [promptHistoryWindow]
    exact le_trans (List.length_filterMap_le _ _) (jsSliceLast_length_le 10 msgs)
  refine ⟨hmain, hwin10, ?_, ?_, ?_⟩
  · intro msgs p hp
    simp only [promptHistoryWindow] at hp
    obtain ⟨msg, hmem, heq⟩ := List.mem_filterMap.mp hp
    cases hrole : msg.role <;> simp [hrole] at heq <;> simp [← heq]
  · intro msgs m
    rw [hmain]
    have := hwin10 msgs
    simp only [List.length_cons, List.length_append, List.length_singleton,
      List.length_nil]
    omega
  · intro complete store user userId m cid c ctx now hget howner hcrisis
    simp [postMessage, hget, howner, hcrisis, generateResponse_promptsSent, userMessageOf]

/-- Witness for C8 at a concrete request: the dispatcher forwards exactly the
windowed prompt for the message "hola" on the stored conversation. -/
theorem prompt_windowed_bounded_witness :
    (postMessage completeFail store7 {} 7 "hola" "c1" none 0).promptsSent
      = [buildPromptMessages (jsSliceLast 10 (conv7.messages ++ [userMessageOf "hola"]))
          "hola"] :=
  prompt_windowed_bounded.2.2.2.2 completeFail store7 {} 7 "hola" "c1" conv7 none 0
    rfl rfl (by decide)

/-- C2: on a crisis message in an existing owned conversation, the handler
answers 200 with the crisis-resource bundle selected by the language
preference of the user, sends nothing upstream, appends no message, and
leaves the store and the user statistics unchanged. -/
theorem crisis_path_skips_completion
    (complete : List PromptMsg → Except Unit Completion)
    (store : ConversationStore) (user : UserRec) (userId : Nat)
    (m cid : String) (c : Conversation) (ctx : Option Context) (now : Nat)
    (hget : getConv store cid = some c) (howner : c.userId = userId)
    (hcrisis : detectCrisis m = true) :
    postMessage complete store user userId m cid ctx now
      = { response := ChatResponse.crisisAlert (generateCrisisResources
            (if user.preferences.language == "" then "es" else user.preferences.language)),
          conversations := store, user := user, promptsSent := [] } := by
  simp [postMessage, hget, howner, hcrisis]

/-- Witness for C2 at a concrete crisis message: the stored conversation and
the user aggregate come back unchanged with the Spanish resource bundle. -/
theorem crisis_path_skips_completion_witness :
    postMessage completeOk store7 {} 7 "no quiero vivir" "c1" none 0
      = { response := ChatResponse.crisisAlert (generateCrisisResources
            (if ({} : UserRec).preferences.language == "" then "es"
             else ({} : UserRec).preferences.language)),
          conversations := store7, user := {}, promptsSent := [] } :=
  crisis_path_skips_completion completeOk store7 {} 7 "no quiero vivir" "c1" conv7
    none 0 rfl rfl (by decide)

/-- C1: when the upstream completion call fails on the non-crisis path,
`generateResponse` returns normally with the fixed non-empty fallback content
and type fallback, and the dispatcher still appends that text as the
assistant message, increments `totalMessages` by one, and answers 200 with
the fallback reply. -/
theorem completion_failure_yields_fallback
    (complete : List PromptMsg → Except Unit Completion)
    (store : ConversationStore) (user : UserRec) (userId : Nat)
    (m cid : String) (c : Conversation) (ctx : Option Context) (now : Nat)
    (hget : getConv store cid = some c) (howner : c.userId = userId)
    (hcrisis : detectCrisis m = false)
    (hfail : complete (buildPromptMessages
        (jsSliceLast 10 (c.messages ++ [userMessageOf m])) m) = Except.error ()
      ∨ ∃ comp, complete (buildPromptMessages
          (jsSliceLast 10 (c.messages ++ [userMessageOf m])) m) = Except.ok comp
        ∧ comp.choices = []) :
    fallbackContent ≠ ""
    ∧ (generateResponse complete m (jsSliceLast 10 (c.messages ++ [userMessageOf m]))
        (ctx.getD c.context)).1 = fallbackResponse
    ∧ (postMessage complete store user userId m cid ctx now).response
        = ChatResponse.messageReply
            { role := Role.assistant, content := fallbackContent,
              suggestions := fallbackSuggestions, type := MsgType.fallback }
            cid fallbackSuggestions
    ∧ (∃ c1, getConv (postMessage complete store user userId m cid ctx now).conversations
          cid = some c1
        ∧ c1.messages = c.messages ++ [userMessageOf m,
            { role := Role.assistant, content := fallbackContent,
              suggestions := fallbackSuggestions, type := MsgType.fallback }])
    ∧ (postMessage complete store user userId m cid ctx now).user.stats.totalMessages
        = user.stats.totalMessages + 1 := by
  have hgen : (generateResponse complete m
      (jsSliceLast 10 (c.messages ++ [userMessageOf m])) (ctx.getD c.context)).1
      = fallbackResponse := by
    rcases hfail with herr | ⟨comp, hok, hch⟩
    · simp [generateResponse, herr]
    · simp [generateResponse, hok, hch]
  have hassist : assistantMessageOf complete c m ctx
      = { role := Role.assistant, content := fallbackContent,
          suggestions := fallbackSuggestions, type := MsgType.fallback } := by
    simp [assistantMessageOf, hgen, fallbackResponse]
  have hpm := postMessage_noncrisis complete store user userId m cid c ctx now
    hget howner hcrisis
  refine ⟨by decide, hgen, ?_, ?_, ?_⟩
  · rw [hpm]
    simp [hassist]
  · refine ⟨{ c with
        messages := c.messages ++ [userMessageOf m, assistantMessageOf complete c m ctx],
        context := updatedContextOf c ctx now }, ?_, ?_⟩
    · rw [hpm]
      exact getConv_setConv _ _ _
    · simp [hassist]
  · rw [hpm]

/-- Witness for C1 at a concrete failing upstream: the response carries the
fallback assistant message. -/
theorem completion_failure_yields_fallback_witness :
    (postMessage completeFail store7 {} 7 "hola" "c1" none 0).response
      = ChatResponse.messageReply
          { role := Role.assistant, content := fallbackContent,
            suggestions := fallbackSuggestions, type := MsgType.fallback }
          "c1" fallbackSuggestions :=
  (completion_failure_yields_fallback completeFail store7 {} 7 "hola" "c1" conv7
    none 0 rfl rfl (by decide) (Or.inl rfl)).2.2.1

/-- C6: each successful non-crisis exchange appends exactly the user message
followed by one assistant message and increments `totalMessages` by one; two
sequential sends leave the conversation with the first user message, the
first assistant reply, the second user message, and the second assistant
reply, in that order, and `totalMessages` larger by two. -/
theorem exchange_appends_user_then_assistant
    (complete : List PromptMsg → Except Unit Completion)
    (store : ConversationStore) (user : UserRec) (userId : Nat)
    (m1 m2 cid : String) (c : Conversation) (ctx1 ctx2 : Option Context)
    (now1 now2 : Nat)
    (hget : getConv store cid = some c) (howner : c.userId = userId)
    (hm1 : detectCrisis m1 = false) (hm2 : detectCrisis m2 = false) :
    ∃ a1 a2 : Msg, a1.role = Role.assistant ∧ a2.role = Role.assistant
      ∧ (∃ c1, getConv (postMessage complete store user userId m1 cid ctx1 now1).conversations
            cid = some c1
          ∧ c1.messages = c.messages ++ [userMessageOf m1, a1])
      ∧ (postMessage complete store user userId m1 cid ctx1 now1).user.stats.totalMessages
          = user.stats.totalMessages + 1
      ∧ (∃ c2, getConv (postMessage complete
            (postMessage complete store user userId m1 cid ctx1 now1).conversations
            (postMessage complete store user userId m1 cid ctx1 now1).user
            userId m2 cid ctx2 now2).conversations cid = some c2
          ∧ c2.messages = c.messages ++ [userMessageOf m1, a1, userMessageOf m2, a2])
      ∧ (postMessage complete
            (postMessage complete store user userId m1 cid ctx1 now1).conversations
            (postMessage complete store user userId m1 cid ctx1 now1).user
            userId m2 cid ctx2 now2).user.stats.totalMessages
          = user.stats.totalMessages + 2 := by
  have h1 := postMessage_noncrisis complete store user userId m1 cid c ctx1 now1
    hget howner hm1
  have hget1 : getConv (postMessage complete store user userId m1 cid ctx1 now1).conversations
      cid = some { c with
        messages := c.messages ++ [userMessageOf m1, assistantMessageOf complete c m1 ctx1],
        context := updatedContextOf c ctx1 now1 } := by
    rw [h1]
    exact getConv_setConv _ _ _
  have h2 := postMessage_noncrisis complete
    (postMessage complete store user userId m1 cid ctx1 now1).conversations
    (postMessage complete store user userId m1 cid ctx1 now1).user
    userId m2 cid _ ctx2 now2 hget1 howner hm2
  refine ⟨assistantMessageOf complete c m1 ctx1,
    assistantMessageOf complete
      { c with
        messages := c.messages ++ [userMessageOf m1, assistantMessageOf complete c m1 ctx1],
        context := updatedContextOf c ctx1 now1 } m2 ctx2,
    rfl, rfl, ⟨_, hget1, rfl⟩, by rw [h1],
    ⟨{ c with
        messages := (c.messages
            ++ [userMessageOf m1, assistantMessageOf complete c m1 ctx1])
          ++ [userMessageOf m2,
            assistantMessageOf complete
              { c with
                messages := c.messages
                  ++ [userMessageOf m1, assistantMessageOf complete c m1 ctx1],
                context := updatedContextOf c ctx1 now1 } m2 ctx2],
        context := updatedContextOf
          { c with
            messages := c.messages
              ++ [userMessageOf m1, assistantMessageOf complete c m1 ctx1],
            context := updatedContextOf c ctx1 now1 } ctx2 now2 }, ?_, ?_⟩, ?_⟩
  · rw [h2]
    exact getConv_setConv _ _ _
  · simp [List.append_assoc]
  · rw [h2, h1]

/-- Witness for C6 at two concrete non-crisis sends on the stored
conversation. -/
theorem exchange_appends_user_then_assistant_witness :
    ∃ a1 a2 : Msg, a1.role = Role.assistant ∧ a2.role = Role.assistant
      ∧ (∃ c1, getConv (postMessage completeOk store7 {} 7 "hola" "c1" none 0).conversations
            "c1" = some c1
          ∧ c1.messages = conv7.messages ++ [userMessageOf "hola", a1])
      ∧ (postMessage completeOk store7 {} 7 "hola" "c1" none 0).user.stats.totalMessages
          = ({} : UserRec).stats.totalMessages + 1
      ∧ (∃ c2, getConv (postMessage completeOk
            (postMessage completeOk store7 {} 7 "hola" "c1" none 0).conversations
            (postMessage completeOk store7 {} 7 "hola" "c1" none 0).user
            7 "gracias" "c1" none 1).conversations "c1" = some c2
          ∧ c2.messages = conv7.messages
              ++ [userMessageOf "hola", a1, userMessageOf "gracias", a2])
      ∧ (postMessage completeOk
            (postMessage completeOk store7 {} 7 "hola" "c1" none 0).conversations
            (postMessage completeOk store7 {} 7 "hola" "c1" none 0).user
            7 "gracias" "c1" none 1).user.stats.totalMessages
          = ({} : UserRec).stats.totalMessages + 2 :=
  exchange_appends_user_then_assistant completeOk store7 {} 7 "hola" "gracias" "c1"
    conv7 none none 0 1 rfl rfl (by decide) (by decide)

/-- C9: a message send naming a conversation that is absent or owned by a
different user answers 404 and leaves the store, the user aggregate, and the
upstream call log untouched; and once a session-end deletes a conversation,
every later lookup of that id (store read, history route, message send)
reports not-found. -/
theorem unknown_conversation_not_found
    (complete : List PromptMsg → Except Unit Completion)
    (user : UserRec) (m : String) (ctx : Option Context) (now : Nat) :
    (∀ (store : ConversationStore) (userId : Nat) (cid : String),
      (∀ c, getConv store cid = some c → c.userId ≠ userId) →
      postMessage complete store user userId m cid ctx now
        = { response := ChatResponse.notFound, conversations := store,
            user := user, promptsSent := [] })
    ∧ (∀ (store : ConversationStore) (userId : Nat) (cid : String) (c : Conversation),
      getConv store cid = some c → c.userId = userId → cid ≠ "" →
      getConv (sessionEnd store userId (some cid)) cid = none
      ∧ getConversationRoute (sessionEnd store userId (some cid)) userId cid = none
      ∧ (postMessage complete (sessionEnd store userId (some cid)) user userId m cid
          ctx now).response = ChatResponse.notFound) := by
  constructor
  · intro store userId cid hno
    cases hg : getConv store cid with
    | none => simp [postMessage, hg]
    | some c =>
      have hne := hno c hg
      simp [postMessage, hg, hne]
  · intro store userId cid c hget howner hcid
    have hdel : sessionEnd store userId (some cid) = deleteConv store cid := by
      simp [sessionEnd, hcid, hget, howner]
    rw [hdel]
    refine ⟨getConv_deleteConv store cid, ?_, ?_⟩
    · simp [getConversationRoute, getConv_deleteConv]
    · simp [postMessage, getConv_deleteConv]

/-- Witness for C9: a send naming an absent conversation id answers 404 with
no side effect, and after the owner ends the stored session its id reads back
as not-found. -/
theorem unknown_conversation_not_found_witness :
    postMessage completeOk store7 {} 7 "hola" "missing" none 0
      = { response := ChatResponse.notFound, conversations := store7,
          user := {}, promptsSent := [] }
    ∧ getConv (sessionEnd store7 7 (some "c1")) "c1" = none :=
  ⟨(unknown_conversation_not_found completeOk {} "hola" none 0).1 store7 7 "missing"
      (fun c h => by simp [getConv, store7] at h),
   ((unknown_conversation_not_found completeOk {} "hola" none 0).2 store7 7 "c1" conv7
      rfl rfl (by decide)).1⟩

end MindSync
